import Mathlib

/-!
Shallow embedding of the session-bootstrap / cookie-jar / CSRF / context
protocol of the `adt-query` repository (Rust), together with theorems that
settle the specification claims against it.

The embedding translates, faithfully to the Rust source:
  * `src/core.rs`   : `Cookie`, `Cookie::parse`, `CookieJar` and its operations
  * `src/client.rs` : `UserSession`, header construction, the CSRF prefetch
                      and the stateless/stateful dispatch pipeline,
                      `Client::drop_context`
  * `src/session.rs`: `SecuritySession::create_from_headers`,
                      `update_from_headers`, `stateful_cookies`
  * `src/endpoint.rs` / `src/query.rs`: `build_request`, the
                      `StatelessQuery`/`StatefulQuery` pipelines,
                      `inject_request_context`
  * `src/auth.rs`   : `Credentials::basic_auth`

Rust `panic!`/`unwrap` is modelled by `Option` (with `none` for a panic),
machine time (`Utc::now()`) by an explicit `now : Int` parameter (epoch
seconds), and the transport collaborator by a script of responses.
-/

namespace AdtQuery

/-- Is `pat` a (char-list) prefix of `l`? Mirrors Rust slice prefix match. -/
def isPrefixL : List Char → List Char → Bool
  | [], _ => true
  | _ :: _, [] => false
  | a :: as, b :: bs => a == b && isPrefixL as bs

/-- Does `l` contain `pat` as a contiguous sublist? -/
def infixL (pat : List Char) : List Char → Bool
  | [] => pat.isEmpty
  | a :: rest => isPrefixL pat (a :: rest) || infixL pat rest

/-- Rust `str::contains(pat)`: substring test (empty pattern always true). -/
def strContains (s pat : String) : Bool :=
  infixL pat.data s.data

/-- Split a char list at the first occurrence of the separator list. -/
def splitOnceL (sep : List Char) : List Char → Option (List Char × List Char)
  | [] => none
  | c :: cs =>
      if isPrefixL sep (c :: cs) then some ([], (c :: cs).drop sep.length)
      else (splitOnceL sep cs).map (fun p => (c :: p.1, p.2))

/-- Rust `str::split_once(sep)`: split at the first occurrence of `sep`. -/
def splitOnce (s sep : String) : Option (String × String) :=
  (splitOnceL sep.data s.data).map (fun p => (⟨p.1⟩, ⟨p.2⟩))

/-- Split a char list at every (non-overlapping, leftmost) occurrence of
the separator; the fuel is an upper bound on the list length, making the
recursion structural. -/
def splitOnLAux (sep : List Char) : Nat → List Char → List (List Char)
  | _, [] => [[]]
  | 0, l => [l]
  | fuel + 1, c :: cs =>
      if isPrefixL sep (c :: cs) && !sep.isEmpty then
        [] :: splitOnLAux sep fuel ((c :: cs).drop sep.length)
      else
        match splitOnLAux sep fuel cs with
        | [] => [[c]]
        | h :: t => (c :: h) :: t

/-- Rust `str::split(sep)` collected into a list: always at least one
element, `["…"] = [s]` when the separator does not occur. -/
def splitStr (s sep : String) : List String :=
  (splitOnLAux sep.data s.data.length s.data).map (fun l => ⟨l⟩)

/-- Rust `String::replace(";", "")`: remove every semicolon. -/
def removeSemis (s : String) : String :=
  ⟨s.data.filter (fun c => c ≠ ';')⟩

/-- UTF-8 bytes of one character (as in Rust `String` byte representation). -/
def utf8Char (c : Char) : List Nat :=
  let n := c.toNat
  if n < 0x80 then [n]
  else if n < 0x800 then [0xC0 + n / 64, 0x80 + n % 64]
  else if n < 0x10000 then [0xE0 + n / 4096, 0x80 + (n / 64) % 64, 0x80 + n % 64]
  else [0xF0 + n / 262144, 0x80 + (n / 4096) % 64, 0x80 + (n / 64) % 64, 0x80 + n % 64]

/-- UTF-8 byte sequence of a string. -/
def utf8Bytes (s : String) : List Nat :=
  s.data.flatMap utf8Char

/-- Character of the standard base64 alphabet at index `n < 64`. -/
def b64Char (n : Nat) : Char :=
  "ABCDEFGHIJKLMNOPQRSTUVWXYZabcdefghijklmnopqrstuvwxyz0123456789+/".data.getD n 'A'

/-- Standard base64 encoding with `=` padding (`base64::engine::general_purpose::STANDARD`). -/
def base64Encode : List Nat → String
  | [] => ""
  | [a] =>
      String.mk [b64Char (a / 4), b64Char (a % 4 * 16)] ++ "=="
  | [a, b] =>
      String.mk [b64Char (a / 4), b64Char (a % 4 * 16 + b / 16), b64Char (b % 16 * 4)] ++ "="
  | a :: b :: c :: rest =>
      String.mk [b64Char (a / 4), b64Char (a % 4 * 16 + b / 16),
                 b64Char (b % 16 * 4 + c / 64), b64Char (c % 64)] ++ base64Encode rest

/-- `Credentials::basic_auth` (src/auth.rs): `"Basic " ++ base64(user:pass)`. -/
def basicAuth (username password : String) : String :=
  "Basic " ++ base64Encode (utf8Bytes (username ++ ":" ++ password))

/-! ## Dates

`chrono::NaiveDateTime::parse_from_str(value, "%a, %d-%b-%Y %H:%M:%S %Z")`,
modelled to the fidelity this protocol exercises: short weekday name,
`dd-Mon-yyyy hh:mm:ss` fields, a skipped timezone token, calendar and
weekday consistency checks, result in epoch seconds. -/

/-- A decimal digit's value, `none` for any other character. -/
def charDigit? (c : Char) : Option Nat :=
  let n := c.toNat
  if 48 ≤ n ∧ n ≤ 57 then some (n - 48) else none

/-- Parse a nonempty all-digit string as a natural number (the numeric
field parser; same semantics as `String.toNat?`). -/
def strToNat? (s : String) : Option Nat :=
  match s.data with
  | [] => none
  | l => l.foldlM (fun acc c => (charDigit? c).map (fun d => acc * 10 + d)) 0

/-- Short month name → month number. -/
def monthNum : String → Option Nat
  | "Jan" => some 1 | "Feb" => some 2 | "Mar" => some 3 | "Apr" => some 4
  | "May" => some 5 | "Jun" => some 6 | "Jul" => some 7 | "Aug" => some 8
  | "Sep" => some 9 | "Oct" => some 10 | "Nov" => some 11 | "Dec" => some 12
  | _ => none

/-- Short weekday name → number with Sunday = 0. -/
def weekdayNum : String → Option Nat
  | "Sun" => some 0 | "Mon" => some 1 | "Tue" => some 2 | "Wed" => some 3
  | "Thu" => some 4 | "Fri" => some 5 | "Sat" => some 6
  | _ => none

/-- Is `y` a leap year (proleptic Gregorian)? -/
def isLeap (y : Nat) : Bool :=
  (y % 4 == 0 && y % 100 != 0) || y % 400 == 0

/-- Number of days of month `m` in year `y`. -/
def daysInMonth (y m : Nat) : Nat :=
  if m == 2 then (if isLeap y then 29 else 28)
  else if m == 4 || m == 6 || m == 9 || m == 11 then 30
  else 31

/-- Days since 1970-01-01 of the civil date `y-m-d` (Hinnant's algorithm;
all intermediate quantities are nonnegative for `y ≥ 1`). -/
def daysFromCivil (y m d : Nat) : Int :=
  let y' : Int := if m ≤ 2 then (y : Int) - 1 else (y : Int)
  let era : Int := y' / 400
  let yoe : Int := y' - era * 400
  let doy : Int := (153 * ((m : Int) + (if m > 2 then -3 else 9)) + 2) / 5 + (d : Int) - 1
  let doe : Int := yoe * 365 + yoe / 4 - yoe / 100 + doy
  era * 146097 + doe - 719468

/-- Weekday (Sunday = 0) of a day count since the epoch (a Thursday). -/
def weekdayOfDays (days : Int) : Int :=
  (days + 4).emod 7

/-- Parse an `expires` attribute value in format `%a, %d-%b-%Y %H:%M:%S %Z`
into epoch seconds; `none` on any malformed or inconsistent field. -/
def parseDate (s : String) : Option Int := do
  let (wd, rest) ← splitOnce s ", "
  let wdn ← weekdayNum wd
  match splitStr rest " " with
  | [dmy, hms, tz] =>
    if tz = "" then none else
    match splitStr dmy "-", splitStr hms ":" with
    | [ds, ms, ys], [hs, mins, secs] => do
      let d ← strToNat? ds
      let m ← monthNum ms
      let y ← strToNat? ys
      let h ← strToNat? hs
      let mi ← strToNat? mins
      let sec ← strToNat? secs
      if 1 ≤ y ∧ 1 ≤ d ∧ d ≤ daysInMonth y m ∧ h < 24 ∧ mi < 60 ∧ sec < 60 then
        let days := daysFromCivil y m d
        if weekdayOfDays days = (wdn : Int) then
          some (days * 86400 + (h : Int) * 3600 + (mi : Int) * 60 + (sec : Int))
        else none
      else none
    | _, _ => none
  | _ => none

/-! ## Cookie and CookieJar (src/core.rs) -/

/-- `Cookie` (src/core.rs): one parsed `Set-Cookie` attribute set. `expires`
is kept as epoch seconds (`chrono::DateTime<Utc>` in the source). -/
structure Cookie where
  name : String
  value : String
  path : Option String
  domain : Option String
  expires : Option Int
deriving DecidableEq, Repr

namespace Cookie

/-- One turn of the attribute loop of `Cookie::parse` (src/core.rs): the
segment must contain `=`; `expires`/`path`/`domain` are interpreted, other
attributes ignored. `none` models the `Err(..)` cases. -/
def parseAttr (c : Cookie) (pair : String) : Option Cookie := do
  let (an, av) ← splitOnce pair "="
  match an with
  | "expires" => do
      let ts ← parseDate av
      pure { c with expires := some ts }
  | "path" => pure { c with path := some (removeSemis av) }
  | "domain" => pure { c with domain := some (removeSemis av) }
  | _ => pure c

/-- `Cookie::parse` (src/core.rs): split `name=value[; attr=val]*` and run
the attribute loop. `none` models the `Err(..)` cases. -/
def parse (s : String) : Option Cookie := do
  let (nm, data) ← splitOnce s "="
  match splitStr data "; " with
  | [] => none
  | v :: attrs =>
    attrs.foldlM parseAttr
      { name := nm, value := v, path := none, domain := none, expires := none }

/-- `Cookie::as_cookie_pair`: `"{name}={value}"`. -/
def as_cookie_pair (c : Cookie) : String :=
  c.name ++ "=" ++ c.value

/-- `Cookie::is_allowed_for_destination`: the domain (if set) and the path
(if set) must occur as substrings of the destination string. -/
def is_allowed_for_destination (c : Cookie) (dst : String) : Bool :=
  (match c.domain with
   | some d => strContains dst d
   | none => true)
  && (match c.path with
      | some p => strContains dst p
      | none => true)

/-- `Cookie::expired`: `exp < Utc::now()`, with `now` made explicit. -/
def expired (c : Cookie) (now : Int) : Bool :=
  match c.expires with
  | some e => decide (e < now)
  | none => false

end Cookie

/-- `CookieJar` (src/core.rs): the cookies in insertion order. -/
structure CookieJar where
  cookies : List Cookie
deriving DecidableEq, Repr

namespace CookieJar

/-- `CookieJar::new`. -/
def new : CookieJar := ⟨[]⟩

/-- `CookieJar::is_empty`. -/
def is_empty (jar : CookieJar) : Bool :=
  jar.cookies.isEmpty

/-- `CookieJar::find`: the first cookie whose name CONTAINS the pattern as a
substring (`c.name.contains(pattern)` in the source — not exact match). -/
def find (jar : CookieJar) (pattern : String) : Option Cookie :=
  jar.cookies.find? (fun c => strContains c.name pattern)

/-- Replace the first cookie of the same name in place, or push at the end
(the `if let Some(prev) .. else push` branch of `CookieJar::set_cookie`). -/
def setLive : List Cookie → Cookie → List Cookie
  | [], c => [c]
  | x :: xs, c => if x.name == c.name then c :: xs else x :: setLive xs c

/-- Remove the first cookie with exactly the given name
(`CookieJar::drop_cookie` without the returned value). -/
def removeFirst : List Cookie → String → List Cookie
  | [], _ => []
  | x :: xs, nm => if x.name == nm then xs else x :: removeFirst xs nm

/-- `CookieJar::drop_cookie`: remove and return the first cookie with
exactly the given name. -/
def drop_cookie (jar : CookieJar) (nm : String) : Option Cookie × CookieJar :=
  match jar.cookies.find? (fun c => c.name == nm) with
  | some c => (some c, ⟨removeFirst jar.cookies nm⟩)
  | none => (none, jar)

/-- `CookieJar::take` (used by src/session.rs and src/endpoint.rs): remove
and return the cookie with exactly the given name, like `drop_cookie`. -/
def take (jar : CookieJar) (nm : String) : Option Cookie × CookieJar :=
  jar.drop_cookie nm

/-- `CookieJar::set_cookie`: parse the raw value — the source calls
`.unwrap()`, so a parse failure PANICS, modelled as `none`. An expired
cookie is a tombstone: it removes any same-named cookie and is not stored;
otherwise last write wins. -/
def set_cookie (now : Int) (jar : CookieJar) (raw : String) : Option CookieJar := do
  let c ← Cookie.parse raw
  if c.expired now then
    pure ⟨removeFirst jar.cookies c.name⟩
  else
    pure ⟨setLive jar.cookies c⟩

/-- `CookieJar::set_from_multiple_headers`: apply `set_cookie` to every raw
`Set-Cookie` value in encounter order; a panic aborts the whole batch. -/
def set_from_multiple_headers (now : Int) (jar : CookieJar) (raws : List String) :
    Option CookieJar :=
  raws.foldlM (set_cookie now) jar

/-- `CookieJar::to_header`: join `name=value` of every cookie allowed for
the destination with `"; "`, in insertion order (the source additionally
wraps the string in a `HeaderValue`). -/
def to_header (jar : CookieJar) (dst : String) : String :=
  String.intercalate "; "
    ((jar.cookies.filter (fun c => c.is_allowed_for_destination dst)).map
      Cookie.as_cookie_pair)

/-- The pair list that `to_header` joins, used to state pair membership. -/
def to_header_pairs (jar : CookieJar) (dst : String) : List String :=
  (jar.cookies.filter (fun c => c.is_allowed_for_destination dst)).map
    Cookie.as_cookie_pair

/-- `CookieJar::clear`. -/
def clear (_jar : CookieJar) : CookieJar := ⟨[]⟩

end CookieJar

/-! ## Headers and context maps -/

/-- All values of a (lowercased) header name, in order
(`HeaderMap::get_all`). -/
def getAllH (hs : List (String × String)) (nm : String) : List String :=
  (hs.filter (fun p => p.1 == nm)).map (·.2)

/-- First value of a header name (`HeaderMap::get`). -/
def getH (hs : List (String × String)) (nm : String) : Option String :=
  (hs.find? (fun p => p.1 == nm)).map (·.2)

/-- Context map (`HashMap<UserSessionId, UserSession>`), as an association
list from the numeric handle to the bound `sap-contextid` cookie. -/
def CtxMap := List (Nat × Cookie)
deriving DecidableEq, Repr

/-- `HashMap::get`. -/
def ctxLookup (m : CtxMap) (id : Nat) : Option Cookie :=
  (List.find? (fun p => p.1 == id) m).map (·.2)

/-- `get_mut` + `UserSession::update`, or `insert` of a fresh record: store
`ck` under `id`, keeping every other entry. -/
def ctxStore : CtxMap → Nat → Cookie → CtxMap
  | [], id, ck => [(id, ck)]
  | p :: ps, id, ck =>
      if p.1 == id then (id, ck) :: ps else p :: ctxStore ps id ck

/-- `HashMap::remove`: take the entry for `id` out, if present. -/
def ctxRemove : CtxMap → Nat → Option (Cookie × CtxMap)
  | [], _ => none
  | p :: ps, id =>
      if p.1 == id then some (p.2, ps)
      else (ctxRemove ps id).map (fun r => (r.1, p :: r.2))

/-! ## SecuritySession (src/session.rs)

The same shape implements `UserSession` of src/client.rs: a cookie jar, an
optional CSRF token and the per-context `sap-contextid` cookies. -/

structure SecuritySession where
  cookies : CookieJar
  csrf_token : Option String
  contexts : CtxMap
deriving DecidableEq, Repr

namespace SecuritySession

/-- `SecuritySession::create_from_headers` (src/session.rs; identical logic
in `UserSession::create_from_headers`, src/client.rs): parse all
`set-cookie` values into a fresh jar, capture the `x-csrf-token` header,
always lift the `sap-contextid` cookie out of the jar and seed a context
for it only when a handle was supplied. -/
def create_from_headers (now : Int) (headers : List (String × String))
    (ctx : Option Nat) : Option SecuritySession := do
  let jar ← CookieJar.set_from_multiple_headers now CookieJar.new
    (getAllH headers "set-cookie")
  let csrf := getH headers "x-csrf-token"
  let (taken, jar') := jar.take "sap-contextid"
  let contexts : CtxMap :=
    match ctx, taken with
    | some id, some ck => [(id, ck)]
    | _, _ => []
  pure { cookies := jar', csrf_token := csrf, contexts := contexts }

/-- `SecuritySession::update_from_headers` (src/session.rs; identical logic
in `UserSession::update_from_headers`, src/client.rs): refresh the CSRF
token if the header is present, merge the `set-cookie` values into the jar,
lift the `sap-contextid` cookie out and store it under the supplied handle. -/
def update_from_headers (now : Int) (s : SecuritySession)
    (headers : List (String × String)) (ctx : Option Nat) :
    Option SecuritySession := do
  let csrf :=
    match getH headers "x-csrf-token" with
    | some v => some v
    | none => s.csrf_token
  let jar ← CookieJar.set_from_multiple_headers now s.cookies
    (getAllH headers "set-cookie")
  let (taken, jar') := jar.take "sap-contextid"
  let contexts :=
    match ctx, taken with
    | some id, some ck => ctxStore s.contexts id ck
    | _, _ => s.contexts
  pure { cookies := jar', csrf_token := csrf, contexts := contexts }

/-- `SecuritySession::session_id`: value of the first cookie whose name
contains `SAP_SESSIONID_`. -/
def session_id (s : SecuritySession) : Option String :=
  (s.cookies.find "SAP_SESSIONID_").map (·.value)

/-- `SecuritySession::stateless_cookies(destination)` = `jar.to_header`. -/
def stateless_cookies (s : SecuritySession) (dst : String) : String :=
  s.cookies.to_header dst

/-- `SecuritySession::stateful_cookies` (src/session.rs): the jar header
with the context's cookie pair appended — the source writes
`cookies += &data.cookie().as_cookie_pair()`, i.e. plain concatenation.
`UserSession::stateful_cookies` (src/client.rs) is this at `dst = ""`. -/
def stateful_cookies (s : SecuritySession) (ctx : Nat) (dst : String) : String :=
  let cookies := s.cookies.to_header dst
  match ctxLookup s.contexts ctx with
  | some ck => cookies ++ ck.as_cookie_pair
  | none => cookies

/-- `UserSession::csrf_header` (src/client.rs): the stored token, or the
literal `fetch` when none is known. -/
def csrf_header (s : SecuritySession) : String :=
  s.csrf_token.getD "fetch"

/-- `UserSession::csrf_header_set` (src/client.rs). -/
def csrf_header_set (s : SecuritySession) : Bool :=
  s.csrf_token.isSome

/-- `SecuritySession::drop_user_session` / `UserSession::drop_context`:
remove the local record only, returning it. -/
def drop_user_session (s : SecuritySession) (id : Nat) :
    Option Cookie × SecuritySession :=
  match ctxRemove s.contexts id with
  | some (ck, rest) => (some ck, { s with contexts := rest })
  | none => (none, s)

end SecuritySession

/-! ## The client dispatcher (src/client.rs)

`http::request::Builder` is modelled as method + uri + an append-only
header list; the transport collaborator (`RequestDispatch`) as a script of
responses consumed one per `dispatch_request` call. -/

structure Request where
  method : String
  uri : String
  headers : List (String × String)
deriving DecidableEq, Repr

structure Response where
  status : Nat
  headers : List (String × String)
  body : String
deriving DecidableEq, Repr

/-- The `Client` fields the dispatch pipeline reads: the lazily created
session behind its lock, the credentials and the system url. -/
structure ClientState where
  session : Option SecuritySession
  username : String
  password : String
  serverUrl : String
deriving DecidableEq, Repr

namespace Client

/-- `Client::add_stateless_headers`: sessiontype `stateless`; with a
session its cookie header (at destination `""`) and CSRF header, without
one the `fetch` token and basic-auth credentials. -/
def add_stateless_headers (st : ClientState) (req : Request) : Request :=
  let req := { req with headers := req.headers ++ [("x-sap-adt-sessiontype", "stateless")] }
  match st.session with
  | some s =>
      { req with headers := req.headers ++
          [("cookie", s.stateless_cookies ""), ("x-csrf-token", s.csrf_header)] }
  | none =>
      { req with headers := req.headers ++
          [("x-csrf-token", "fetch"), ("authorization", basicAuth st.username st.password)] }

/-- `Client::add_stateful_headers`: as stateless, but sessiontype
`stateful` and the per-context cookie header. -/
def add_stateful_headers (st : ClientState) (req : Request) (ctx : Nat) : Request :=
  let req := { req with headers := req.headers ++ [("x-sap-adt-sessiontype", "stateful")] }
  match st.session with
  | some s =>
      { req with headers := req.headers ++
          [("cookie", s.stateful_cookies ctx ""), ("x-csrf-token", s.csrf_header)] }
  | none =>
      { req with headers := req.headers ++
          [("x-csrf-token", "fetch"), ("authorization", basicAuth st.username st.password)] }

/-- `Client::csrf_prefetch_required`: POST and (no session, or a session
without a CSRF token). -/
def csrf_prefetch_required (st : ClientState) (req : Request) : Bool :=
  req.method == "POST" &&
    (match st.session with
     | some s => !s.csrf_header_set
     | none => true)

/-- `clone_as_csrf_request`: a fresh GET builder with the same uri and a
copy of all headers. -/
def clone_as_csrf_request (req : Request) : Request :=
  { method := "GET", uri := req.uri, headers := req.headers }

/-- `Client::update_from_response`: nothing happens without a `set-cookie`
header; otherwise the response headers update the existing session or
create one. -/
def update_from_response (now : Int) (st : ClientState) (resp : Response)
    (ctx : Option Nat) : Option ClientState :=
  if getAllH resp.headers "set-cookie" = [] then
    some st
  else
    match st.session with
    | some s => do
        let s' ← s.update_from_headers now resp.headers ctx
        pure { st with session := some s' }
    | none => do
        let s' ← SecuritySession.create_from_headers now resp.headers ctx
        pure { st with session := some s' }

/-- `Client::prefetch_csrf_token`: dispatch the stateless-headed GET clone
with an empty body, then merge its response (with no context id). Returns
the consumed response, the logged request and the updated state. -/
def prefetch_csrf_token (now : Int) (st : ClientState) (req : Request)
    (script : List Response) :
    Option (ClientState × List (Request × String) × List Response) := do
  let creq := add_stateless_headers st (clone_as_csrf_request req)
  match script with
  | [] => none
  | r :: rest => do
      let st' ← update_from_response now st r none
      pure (st', [(creq, "")], rest)

/-- `Client::dispatch_stateless`: optional CSRF prefetch, then the request
with stateless headers, then merge the response (no context id). Returns
the final state, all transport calls `(request, body)` in order, and the
main response. -/
def dispatch_stateless (now : Int) (st : ClientState) (req : Request)
    (body : String) (script : List Response) :
    Option (ClientState × List (Request × String) × Response) := do
  let (st, log, script) ←
    if csrf_prefetch_required st req then
      prefetch_csrf_token now st req script
    else
      pure (st, [], script)
  let req' := add_stateless_headers st req
  match script with
  | [] => none
  | r :: _ => do
      let st' ← update_from_response now st r none
      pure (st', log ++ [(req', body)], r)

/-- `Client::dispatch_stateful`: as `dispatch_stateless`, with stateful
headers for `ctx` and the response merged under `ctx`. -/
def dispatch_stateful (now : Int) (st : ClientState) (req : Request)
    (body : String) (ctx : Nat) (script : List Response) :
    Option (ClientState × List (Request × String) × Response) := do
  let (st, log, script) ←
    if csrf_prefetch_required st req then
      prefetch_csrf_token now st req script
    else
      pure (st, [], script)
  let req' := add_stateful_headers st req ctx
  match script with
  | [] => none
  | r :: _ => do
      let st' ← update_from_response now st r (some ctx)
      pure (st', log ++ [(req', body)], r)

/-- `Client::drop_context`: when the session holds a record for `id`, the
record is removed AND a stateless POST to `{server}/sap/bc/adt` carrying
the session cookies plus the dropped context's cookie pair is dispatched;
the response is discarded and `true` returned. Otherwise nothing is sent
and `false` returned. -/
def drop_context (st : ClientState) (id : Nat) (script : List Response) :
    Option (ClientState × List (Request × String) × Bool) :=
  match st.session with
  | none => some (st, [], false)
  | some s =>
      match ctxRemove s.contexts id with
      | none => some (st, [], false)
      | some (ck, rest) =>
          let s' := { s with contexts := rest }
          let req : Request :=
            { method := "POST"
              uri := st.serverUrl ++ "/sap/bc/adt"
              headers := [("x-sap-adt-sessiontype", "stateless"),
                          ("cookie", s'.stateless_cookies "" ++ ck.as_cookie_pair)] }
          match script with
          | [] => none
          | _ :: _ => some ({ st with session := some s' }, [(req, "")], true)

end Client

/-! ## The endpoint query pipeline (src/endpoint.rs, src/query.rs,
src/response.rs)

This is the generic-`Session` variant of the dispatcher: the client owns
one cookie jar behind a lock, one CSRF token slot and the context map. The
transport is a script of `dispatch` outcomes (`Err` = transport failure). -/

/-- `ResponseError` (src/error.rs / src/response.rs). -/
inductive RespError where
  | badStatusCode (status : Nat) (body : String)
  | parseError (msg : String)
deriving DecidableEq, Repr

/-- `QueryError` as consumed by src/endpoint.rs. -/
inductive QueryError where
  | unauthorized
  | cookiesMissing
  | dispatchError (msg : String)
  | responseError (e : RespError)
deriving DecidableEq, Repr

/-- `Success::<T>::try_from` (src/response.rs): deserialize the body on
status 200, any other status is a `BadStatusCode` response error. -/
def decodeSuccess {T : Type} (parse : String → Except String T) (r : Response) :
    Except RespError T :=
  if r.status == 200 then (parse r.body).mapError RespError.parseError
  else Except.error (RespError.badStatusCode r.status r.body)

/-- The `Session` + `Contextualize` state consumed by the query pipeline. -/
structure EpClient where
  cookies : CookieJar
  csrf : Option String
  contexts : CtxMap
  username : String
  password : String
  serverUrl : String
deriving DecidableEq, Repr

/-- An `Endpoint` value: method, relative url, extra headers and the
(already serialized) body. -/
structure Endpoint where
  method : String
  url : String
  extraHeaders : List (String × String)
  body : String
deriving DecidableEq, Repr

namespace Ep

/-- `build_request` (src/endpoint.rs): destination url joined with the
endpoint url, the CSRF header (`fetch` when unknown), the endpoint's extra
headers; then basic auth while the jar is empty (keeping the jar guard,
the returned Bool), or the jar's cookie header for the uri. -/
def build_request (ep : Endpoint) (st : EpClient) : Request × Bool :=
  let uri := st.serverUrl ++ ep.url
  let base := [("x-csrf-token", st.csrf.getD "fetch")] ++ ep.extraHeaders
  if st.cookies.is_empty then
    ({ method := ep.method, uri := uri,
       headers := base ++ [("authorization", basicAuth st.username st.password)] }, true)
  else
    ({ method := ep.method, uri := uri,
       headers := base ++ [("cookie", st.cookies.to_header uri)] }, false)

/-- `update_cookies_from_response` (src/endpoint.rs): store the
`x-csrf-token` header if present, then merge the `set-cookie` values (none
present: the jar is untouched). -/
def update_cookies_from_response (now : Int) (st : EpClient) (r : Response) :
    Option EpClient :=
  let csrf' :=
    match getH r.headers "x-csrf-token" with
    | some v => some v
    | none => st.csrf
  if getAllH r.headers "set-cookie" = [] then
    some { st with csrf := csrf' }
  else do
    let jar ← CookieJar.set_from_multiple_headers now st.cookies
      (getAllH r.headers "set-cookie")
    pure { st with csrf := csrf', cookies := jar }

/-- `update_session_from_response` (src/endpoint.rs): as
`update_cookies_from_response`, and additionally lift the `sap-contextid`
cookie out of the jar into the context record for `ctx`. -/
def update_session_from_response (now : Int) (st : EpClient) (r : Response)
    (ctx : Nat) : Option EpClient :=
  let csrf' :=
    match getH r.headers "x-csrf-token" with
    | some v => some v
    | none => st.csrf
  if getAllH r.headers "set-cookie" = [] then
    some { st with csrf := csrf' }
  else do
    let jar ← CookieJar.set_from_multiple_headers now st.cookies
      (getAllH r.headers "set-cookie")
    let (taken, jar') := jar.take "sap-contextid"
    let contexts :=
      match taken with
      | some ck => ctxStore st.contexts ctx ck
      | none => st.contexts
    pure { st with csrf := csrf', cookies := jar', contexts := contexts }

/-- `HeaderMap::insert`: replace every value stored under the name. -/
def setHeader (hs : List (String × String)) (nm v : String) :
    List (String × String) :=
  hs.filter (fun p => p.1 != nm) ++ [(nm, v)]

/-- Append `"; " ++ pair` to the first `cookie` header, `none` if there is
no cookie header. -/
def appendToCookieHeader : List (String × String) → String →
    Option (List (String × String))
  | [], _ => none
  | (k, v) :: t, pair =>
      if k == "cookie" then some ((k, v ++ "; " ++ pair) :: t)
      else (appendToCookieHeader t pair).map (fun t' => (k, v) :: t')

/-- `inject_request_context` (src/query.rs): force the sessiontype header
to `stateful`; when a context record exists its cookie pair is appended to
the cookie header (with the `"; "` separator), and a missing cookie header
is the `CookiesMissing` usage error; without a record the sessiontype
header alone suffices. -/
def inject_request_context (st : EpClient) (req : Request) (ctx : Nat) :
    Except QueryError Request :=
  let hs := setHeader req.headers "x-sap-adt-sessiontype" "stateful"
  match ctxLookup st.contexts ctx with
  | some ck =>
      match appendToCookieHeader hs ck.as_cookie_pair with
      | some hs' => Except.ok { req with headers := hs' }
      | none => Except.error QueryError.cookiesMissing
  | none => Except.ok { req with headers := hs }

/-- `StatelessQuery::query` (src/endpoint.rs): build the request; for a
non-GET method without a known CSRF token, first dispatch the request as a
zero-body GET, merge its response and retry; otherwise dispatch, surface
401 as `Unauthorized`, merge the response and decode it. The transport
script yields `Except` outcomes; `none` is a panic or exhausted
fuel/script. -/
def statelessQuery {T : Type} (parse : String → Except String T) :
    Nat → Int → Endpoint → EpClient → List (Except String Response) →
    Option (EpClient × List (Request × String) × Except QueryError T)
  | 0, _, _, _, _ => none
  | fuel + 1, now, ep, st, script =>
    let (req, _guard) := build_request ep st
    if ep.method != "GET" && st.csrf.isNone then
      match script with
      | [] => none
      | Except.error e :: _ =>
          some (st, [({ req with method := "GET" }, "")],
                Except.error (QueryError.dispatchError e))
      | Except.ok r :: rest => do
          let st' ← update_cookies_from_response now st r
          let res ← statelessQuery parse fuel now ep st' rest
          pure (res.1, ({ req with method := "GET" }, "") :: res.2.1, res.2.2)
    else
      match script with
      | [] => none
      | Except.error e :: _ =>
          some (st, [(req, ep.body)], Except.error (QueryError.dispatchError e))
      | Except.ok r :: _ =>
          if r.status == 401 then
            some (st, [(req, ep.body)], Except.error QueryError.unauthorized)
          else do
            let st' ← update_cookies_from_response now st r
            pure (st', [(req, ep.body)],
                  (decodeSuccess parse r).mapError QueryError.responseError)

/-- `StatefulQuery::query` (src/endpoint.rs): as the stateless variant but
with the context injected into the request and the response merged under
`ctx` — and WITHOUT the 401 check: the raw response goes straight to the
decoder. -/
def statefulQuery {T : Type} (parse : String → Except String T) :
    Nat → Int → Endpoint → Nat → EpClient → List (Except String Response) →
    Option (EpClient × List (Request × String) × Except QueryError T)
  | 0, _, _, _, _, _ => none
  | fuel + 1, now, ep, ctx, st, script =>
    let (req, _guard) := build_request ep st
    if ep.method != "GET" && st.csrf.isNone then
      match script with
      | [] => none
      | Except.error e :: _ =>
          some (st, [({ req with method := "GET" }, "")],
                Except.error (QueryError.dispatchError e))
      | Except.ok r :: rest => do
          let st' ← update_session_from_response now st r ctx
          let res ← statefulQuery parse fuel now ep ctx st' rest
          pure (res.1, ({ req with method := "GET" }, "") :: res.2.1, res.2.2)
    else
      match inject_request_context st req ctx with
      | Except.error e => some (st, [], Except.error e)
      | Except.ok req' =>
        match script with
        | [] => none
        | Except.error e :: _ =>
            some (st, [(req', ep.body)], Except.error (QueryError.dispatchError e))
        | Except.ok r :: _ => do
            let st' ← update_session_from_response now st r ctx
            pure (st', [(req', ep.body)],
                  (decodeSuccess parse r).mapError QueryError.responseError)

end Ep

/-! ## General lemmas about the embedding -/

theorem isPrefixL_iff (p : List Char) : ∀ l, isPrefixL p l = true ↔ ∃ t, l = p ++ t := by
  induction p with
  | nil =>
      intro l
      simp [isPrefixL]
  | cons a as ih =>
      intro l
      cases l with
      | nil => simp [isPrefixL]
      | cons b bs =>
          simp only [isPrefixL, Bool.and_eq_true, beq_iff_eq, ih bs, List.cons_append]
          constructor
          · rintro ⟨rfl, t, rfl⟩
            exact ⟨t, rfl⟩
          · rintro ⟨t, h⟩
            injection h with h1 h2
            exact ⟨h1.symm, t, h2⟩

theorem infixL_iff (pat : List Char) :
    ∀ l, infixL pat l = true ↔ ∃ pre post, l = pre ++ pat ++ post := by
  intro l
  induction l with
  | nil =>
      simp only [infixL, List.isEmpty_iff]
      constructor
      · rintro rfl
        exact ⟨[], [], rfl⟩
      · rintro ⟨pre, post, h⟩
        rcases List.append_eq_nil.mp h.symm with ⟨h1, h2⟩
        exact (List.append_eq_nil.mp h1).2
  | cons a rest ih =>
      simp only [infixL, Bool.or_eq_true, isPrefixL_iff, ih]
      constructor
      · rintro (⟨t, ht⟩ | ⟨pre, post, h⟩)
        · exact ⟨[], t, by simpa using ht⟩
        · exact ⟨a :: pre, post, by simp [h]⟩
      · rintro ⟨pre, post, h⟩
        cases pre with
        | nil => exact Or.inl ⟨post, by simpa using h⟩
        | cons x xs =>
            injection h with h1 h2
            exact Or.inr ⟨xs, post, h2⟩

/-- `strContains` decides the substring relation on the underlying char
lists. -/
theorem strContains_iff (s pat : String) :
    strContains s pat = true ↔ ∃ pre post, s.data = pre ++ pat.data ++ post :=
  infixL_iff pat.data s.data

theorem splitOnceL_no_sep_in_head {c₀ : Char} :
    ∀ {l a b : List Char}, splitOnceL [c₀] l = some (a, b) → c₀ ∉ a := by
  intro l
  induction l with
  | nil => intro a b h; simp [splitOnceL] at h
  | cons c cs ih =>
      intro a b h
      unfold splitOnceL at h
      by_cases hp : isPrefixL [c₀] (c :: cs) = true
      · rw [if_pos hp] at h
        injection h with h'
        injection h' with h1 h2
        subst h1
        simp
      · rw [if_neg hp] at h
        cases hsc : splitOnceL [c₀] cs with
        | none => rw [hsc] at h; simp at h
        | some p =>
            obtain ⟨a', b'⟩ := p
            rw [hsc] at h
            simp only [Option.map] at h
            injection h with h'
            injection h' with h1 h2
            subst h1
            have hcc : ¬ c₀ = c := by
              intro hcc
              apply hp
              simp [isPrefixL, hcc]
            simp only [List.mem_cons, not_or]
            exact ⟨hcc, ih hsc⟩

/-- `parseAttr` never changes the cookie's name. -/
theorem parseAttr_name {c0 c1 : Cookie} {pair : String}
    (h : Cookie.parseAttr c0 pair = some c1) : c1.name = c0.name := by
  unfold Cookie.parseAttr at h
  cases hx : splitOnce pair "=" with
  | none => simp [hx] at h
  | some av =>
      obtain ⟨an, avv⟩ := av
      simp only [hx, Option.bind_eq_bind, Option.some_bind] at h
      split at h
      · cases hts : parseDate avv with
        | none => simp [hts] at h
        | some ts =>
            simp only [hts, Option.pure_def, Option.bind_eq_bind, Option.some_bind,
              Option.some.injEq] at h
            simp [← h]
      · simp only [Option.pure_def, Option.some.injEq] at h
        simp [← h]
      · simp only [Option.pure_def, Option.some.injEq] at h
        simp [← h]
      · simp only [Option.pure_def, Option.some.injEq] at h
        simp [← h]

/-- The attribute loop never changes the cookie's name. -/
theorem foldlM_parseAttr_name :
    ∀ (l : List String) (c0 c : Cookie),
      l.foldlM Cookie.parseAttr c0 = some c → c.name = c0.name := by
  intro l
  induction l with
  | nil => intro c0 c hh; simp at hh; simp [← hh]
  | cons x xs ih =>
      intro c0 c hh
      simp only [List.foldlM_cons, Option.bind_eq_bind] at hh
      cases hx : Cookie.parseAttr c0 x with
      | none => simp [hx] at hh
      | some c1 =>
          simp only [hx, Option.some_bind] at hh
          exact (ih c1 c hh).trans (parseAttr_name hx)

/-- A parsed cookie's name never contains `=` (it is the part of the raw
value before the first `=`). -/
theorem parse_name_eq_free {raw : String} {c : Cookie} (h : Cookie.parse raw = some c) :
    '=' ∉ c.name.data := by
  unfold Cookie.parse at h
  cases hs : splitOnce raw "=" with
  | none => simp [hs] at h
  | some nd =>
      obtain ⟨nm, data⟩ := nd
      simp only [hs, Option.bind_eq_bind, Option.some_bind] at h
      have hnm : '=' ∉ nm.data := by
        unfold splitOnce at hs
        cases hsl : splitOnceL "=".data raw.data with
        | none => simp [hsl] at hs
        | some p =>
            simp [hsl] at hs
            have := @splitOnceL_no_sep_in_head '=' raw.data p.1 p.2
              (by simpa using hsl)
            rcases hs with ⟨h1, _⟩
            simpa [← h1] using this
      cases hd : splitStr data "; " with
      | nil => simp [hd] at h
      | cons v attrs =>
          simp only [hd] at h
          have := foldlM_parseAttr_name attrs _ _ h
          rw [this]
          exact hnm

theorem removeFirst_subset {l : List Cookie} {nm : String} :
    ∀ c' ∈ CookieJar.removeFirst l nm, c' ∈ l := by
  induction l with
  | nil => simp [CookieJar.removeFirst]
  | cons x xs ih =>
      intro c' hc'
      unfold CookieJar.removeFirst at hc'
      by_cases hx : (x.name == nm) = true
      · rw [if_pos hx] at hc'
        exact List.mem_cons_of_mem x hc'
      · rw [if_neg hx] at hc'
        rcases List.mem_cons.mp hc' with h | h
        · exact h ▸ List.mem_cons_self x xs
        · exact List.mem_cons_of_mem x (ih c' h)

theorem removeFirst_sublist (l : List Cookie) (nm : String) :
    List.Sublist (CookieJar.removeFirst l nm) l := by
  induction l with
  | nil => simp [CookieJar.removeFirst]
  | cons x xs ih =>
      unfold CookieJar.removeFirst
      by_cases hx : (x.name == nm) = true
      · rw [if_pos hx]
        exact List.sublist_cons_self x xs
      · rw [if_neg hx]
        exact List.Sublist.cons₂ x ih

/-- With pairwise distinct names, removing the first cookie of a name
leaves no cookie of that name. -/
theorem removeFirst_name_gone {l : List Cookie} {nm : String}
    (hnodup : (l.map Cookie.name).Nodup) :
    ∀ c' ∈ CookieJar.removeFirst l nm, c'.name ≠ nm := by
  induction l with
  | nil => simp [CookieJar.removeFirst]
  | cons x xs ih =>
      intro c' hc'
      unfold CookieJar.removeFirst at hc'
      rw [List.map_cons, List.nodup_cons] at hnodup
      by_cases hx : (x.name == nm) = true
      · rw [if_pos hx] at hc'
        intro hceq
        apply hnodup.1
        have hm : c'.name ∈ List.map Cookie.name xs := List.mem_map_of_mem Cookie.name hc'
        rwa [hceq, ← beq_iff_eq.mp hx] at hm
      · rw [if_neg hx] at hc'
        rcases List.mem_cons.mp hc' with h | h
        · subst h
          exact fun hceq => hx (beq_iff_eq.mpr hceq)
        · exact ih hnodup.2 c' h

theorem mem_setLive {l : List Cookie} {c c' : Cookie}
    (h : c' ∈ CookieJar.setLive l c) : c' ∈ l ∨ c' = c := by
  induction l with
  | nil => simpa [CookieJar.setLive] using h
  | cons x xs ih =>
      unfold CookieJar.setLive at h
      by_cases hx : (x.name == c.name) = true
      · rw [if_pos hx] at h
        rcases List.mem_cons.mp h with h | h
        · exact Or.inr h
        · exact Or.inl (List.mem_cons_of_mem x h)
      · rw [if_neg hx] at h
        rcases List.mem_cons.mp h with h | h
        · exact Or.inl (h ▸ List.mem_cons_self x xs)
        · rcases ih h with h | h
          · exact Or.inl (List.mem_cons_of_mem x h)
          · exact Or.inr h

theorem setLive_nodup {l : List Cookie} {c : Cookie}
    (hnodup : (l.map Cookie.name).Nodup) :
    ((CookieJar.setLive l c).map Cookie.name).Nodup := by
  induction l with
  | nil => simp [CookieJar.setLive]
  | cons x xs ih =>
      rw [List.map_cons, List.nodup_cons] at hnodup
      unfold CookieJar.setLive
      by_cases hx : (x.name == c.name) = true
      · rw [if_pos hx, List.map_cons, List.nodup_cons]
        exact ⟨fun hmem => hnodup.1 ((beq_iff_eq.mp hx) ▸ hmem), hnodup.2⟩
      · rw [if_neg hx, List.map_cons, List.nodup_cons]
        refine ⟨?_, ih hnodup.2⟩
        intro hmem
        rcases List.mem_map.mp hmem with ⟨c', hc', hceq⟩
        rcases mem_setLive hc' with h | h
        · exact hnodup.1 (hceq ▸ List.mem_map_of_mem Cookie.name h)
        · exact hx (beq_iff_eq.mpr (hceq.symm.trans (congrArg Cookie.name h)))

theorem set_cookie_nodup {now : Int} {jar jar' : CookieJar} {raw : String}
    (hnodup : (jar.cookies.map Cookie.name).Nodup)
    (h : CookieJar.set_cookie now jar raw = some jar') :
    (jar'.cookies.map Cookie.name).Nodup := by
  unfold CookieJar.set_cookie at h
  cases hp : Cookie.parse raw with
  | none => simp [hp] at h
  | some c =>
      simp only [hp, Option.bind_eq_bind, Option.some_bind] at h
      by_cases he : c.expired now = true
      · rw [if_pos he] at h
        simp only [Option.pure_def, Option.some.injEq] at h
        rw [← h]
        exact ((removeFirst_sublist jar.cookies c.name).map Cookie.name).nodup hnodup
      · rw [if_neg he] at h
        simp only [Option.pure_def, Option.some.injEq] at h
        rw [← h]
        exact setLive_nodup hnodup

theorem set_from_multiple_headers_cons (now : Int) (jar : CookieJar) (r : String)
    (rs : List String) :
    CookieJar.set_from_multiple_headers now jar (r :: rs) =
      (CookieJar.set_cookie now jar r).bind
        (fun j => CookieJar.set_from_multiple_headers now j rs) := by
  unfold CookieJar.set_from_multiple_headers
  simp [List.foldlM_cons]

theorem set_from_multiple_headers_nodup {now : Int} {jar jar' : CookieJar}
    {raws : List String}
    (hnodup : (jar.cookies.map Cookie.name).Nodup)
    (h : CookieJar.set_from_multiple_headers now jar raws = some jar') :
    (jar'.cookies.map Cookie.name).Nodup := by
  induction raws generalizing jar with
  | nil =>
      unfold CookieJar.set_from_multiple_headers at h
      simp at h
      exact h ▸ hnodup
  | cons r rs ih =>
      rw [set_from_multiple_headers_cons] at h
      cases hc : CookieJar.set_cookie now jar r with
      | none => simp [hc] at h
      | some j =>
          simp only [hc, Option.some_bind] at h
          exact ih (set_cookie_nodup hnodup hc) h

theorem set_from_multiple_headers_isSome (now : Int) (jar : CookieJar)
    {raws : List String}
    (h : ∀ v ∈ raws, (Cookie.parse v).isSome) :
    (CookieJar.set_from_multiple_headers now jar raws).isSome := by
  induction raws generalizing jar with
  | nil =>
      unfold CookieJar.set_from_multiple_headers
      simp
  | cons r rs ih =>
      rw [set_from_multiple_headers_cons]
      have h1 : (Cookie.parse r).isSome := h r (List.mem_cons_self r rs)
      cases hp : Cookie.parse r with
      | none => rw [hp] at h1; simp at h1
      | some c =>
          have : ∃ j, CookieJar.set_cookie now jar r = some j := by
            unfold CookieJar.set_cookie
            simp only [hp, Option.bind_eq_bind, Option.some_bind]
            by_cases he : c.expired now = true
            · refine ⟨⟨CookieJar.removeFirst jar.cookies c.name⟩, ?_⟩
              rw [if_pos he]
              rfl
            · refine ⟨⟨CookieJar.setLive jar.cookies c⟩, ?_⟩
              rw [if_neg he]
              rfl
          obtain ⟨j, hj⟩ := this
          rw [hj, Option.some_bind]
          exact ih j (fun v hv => h v (List.mem_cons_of_mem r hv))

theorem getAllH_append (a b : List (String × String)) (nm : String) :
    getAllH (a ++ b) nm = getAllH a nm ++ getAllH b nm := by
  simp [getAllH, List.filter_append]

theorem getAllH_nil_filter {hs : List (String × String)} {nm : String}
    (h : getAllH hs nm = []) :
    List.filter (fun p => p.1 == nm) hs = [] := by
  unfold getAllH at h
  exact List.map_eq_nil_iff.mp h

theorem ctxStore_lookup_self (m : CtxMap) (id : Nat) (ck : Cookie) :
    ctxLookup (ctxStore m id ck) id = some ck := by
  induction m with
  | nil => simp [ctxStore, ctxLookup]
  | cons p ps ih =>
      unfold ctxStore
      by_cases hp : (p.1 == id) = true
      · rw [if_pos hp]
        simp [ctxLookup]
      · rw [if_neg hp]
        unfold ctxLookup at ih ⊢
        simp only [List.find?_cons, hp]
        exact ih

theorem ctxStore_lookup_other (m : CtxMap) (id j : Nat) (ck : Cookie)
    (hne : j ≠ id) :
    ctxLookup (ctxStore m id ck) j = ctxLookup m j := by
  induction m with
  | nil =>
      simp only [ctxStore, ctxLookup, List.find?_cons, List.find?_nil]
      have : (id == j) = false := by simpa using fun h => hne h.symm
      simp [this]
  | cons p ps ih =>
      unfold ctxStore
      by_cases hp : (p.1 == id) = true
      · rw [if_pos hp]
        unfold ctxLookup
        have h1 : (id == j) = false := by simpa using fun h => hne h.symm
        have h2 : (p.1 == j) = false := by
          simp only [beq_eq_false_iff_ne, ne_eq]
          intro hh
          exact hne ((beq_iff_eq.mp hp) ▸ hh ▸ rfl)
        simp [List.find?_cons, h1, h2]
      · rw [if_neg hp]
        unfold ctxLookup at ih ⊢
        simp only [List.find?_cons]
        cases hq : (p.1 == j) with
        | true => simp
        | false => exact ih

theorem ctxRemove_lookup_other {m : CtxMap} {id : Nat} {ck : Cookie} {rest : CtxMap}
    (h : ctxRemove m id = some (ck, rest)) :
    ∀ j, j ≠ id → ctxLookup rest j = ctxLookup m j := by
  induction m generalizing ck rest with
  | nil => simp [ctxRemove] at h
  | cons p ps ih =>
      intro j hj
      unfold ctxRemove at h
      by_cases hp : (p.1 == id) = true
      · rw [if_pos hp] at h
        simp only [Option.some.injEq, Prod.mk.injEq] at h
        rw [← h.2]
        unfold ctxLookup
        have h2 : (p.1 == j) = false := by
          simp only [beq_eq_false_iff_ne, ne_eq]
          intro hh
          exact hj (hh ▸ (beq_iff_eq.mp hp))
        simp [List.find?_cons, h2]
      · rw [if_neg hp] at h
        cases hr : ctxRemove ps id with
        | none => simp [hr] at h
        | some pr =>
            obtain ⟨ck', rest'⟩ := pr
            simp only [hr, Option.map_some', Option.some.injEq, Prod.mk.injEq] at h
            rw [← h.2]
            unfold ctxLookup
            simp only [List.find?_cons]
            cases hq : (p.1 == j) with
            | true => simp
            | false =>
                have := ih hr j hj
                unfold ctxLookup at this
                exact this

/-- With `=`-free names, a cookie pair determines the name. -/
theorem pair_name_inj {n1 v1 n2 v2 : List Char} (sep : Char)
    (h1 : sep ∉ n1) (h2 : sep ∉ n2)
    (h : n1 ++ sep :: v1 = n2 ++ sep :: v2) : n1 = n2 ∧ v1 = v2 := by
  induction n1 generalizing n2 with
  | nil =>
      cases n2 with
      | nil => simpa using h
      | cons b bs =>
          injection h with hh1 hh2
          exact absurd (hh1 ▸ List.mem_cons_self b bs) h2
  | cons a as ih =>
      cases n2 with
      | nil =>
          injection h with hh1 hh2
          exact absurd (hh1 ▸ List.mem_cons_self a as) h1
      | cons b bs =>
          injection h with hh1 hh2
          have := ih (fun hm => h1 (List.mem_cons_of_mem a hm))
            (fun hm => h2 (List.mem_cons_of_mem b hm)) hh2
          exact ⟨by rw [hh1, this.1], this.2⟩

/-- Merging response headers that contain parseable `set-cookie` values
and an `x-csrf-token` header into a fresh session captures the token. -/
theorem create_from_headers_csrf (now : Int) {headers : List (String × String)}
    {t : String}
    (hparse : ∀ v ∈ getAllH headers "set-cookie", (Cookie.parse v).isSome)
    (htok : getH headers "x-csrf-token" = some t) :
    ∃ s1, SecuritySession.create_from_headers now headers none = some s1 ∧
      s1.csrf_token = some t := by
  obtain ⟨jm, hjm⟩ := Option.isSome_iff_exists.mp
    (set_from_multiple_headers_isSome now CookieJar.new hparse)
  refine ⟨⟨(jm.take "sap-contextid").2, some t, []⟩, ?_, rfl⟩
  unfold SecuritySession.create_from_headers
  simp only [hjm, htok, Option.bind_eq_bind, Option.some_bind]
  rfl

/-- The same for `update_from_headers` on an existing session. -/
theorem update_from_headers_csrf (now : Int) {headers : List (String × String)}
    {t : String} (s : SecuritySession)
    (hparse : ∀ v ∈ getAllH headers "set-cookie", (Cookie.parse v).isSome)
    (htok : getH headers "x-csrf-token" = some t) :
    ∃ s1, s.update_from_headers now headers none = some s1 ∧
      s1.csrf_token = some t := by
  obtain ⟨jm, hjm⟩ := Option.isSome_iff_exists.mp
    (set_from_multiple_headers_isSome now s.cookies hparse)
  refine ⟨⟨(jm.take "sap-contextid").2, some t, s.contexts⟩, ?_, rfl⟩
  unfold SecuritySession.update_from_headers
  simp only [hjm, htok, Option.bind_eq_bind, Option.some_bind]
  rfl

/-- `update_from_response` on a response with parseable cookies and a
token header produces a state whose session knows the token; the other
client fields are untouched. -/
theorem update_from_response_csrf (now : Int) (st : ClientState) {r1 : Response}
    {t : String}
    (hsc : getAllH r1.headers "set-cookie" ≠ [])
    (hparse : ∀ v ∈ getAllH r1.headers "set-cookie", (Cookie.parse v).isSome)
    (htok : getH r1.headers "x-csrf-token" = some t) :
    ∃ s1, Client.update_from_response now st r1 none =
        some { st with session := some s1 } ∧
      s1.csrf_token = some t := by
  unfold Client.update_from_response
  rw [if_neg hsc]
  cases hses : st.session with
  | none =>
      obtain ⟨s1, hs1, hcs⟩ := create_from_headers_csrf now hparse htok
      refine ⟨s1, ?_, hcs⟩
      simp only [hs1, Option.bind_eq_bind, Option.some_bind]
      rfl
  | some s =>
      obtain ⟨s1, hs1, hcs⟩ := update_from_headers_csrf now s hparse htok
      refine ⟨s1, ?_, hcs⟩
      simp only [hs1, Option.bind_eq_bind, Option.some_bind]
      rfl

/-! ## Claim theorems -/

/-- C3 (code-bug evidence): `CookieJar::set_cookie` calls
`Cookie::parse(..).unwrap()`, so a `Set-Cookie` value that fails to parse —
one with no `=` at all, an attribute segment without `=` such as
`HttpOnly`, or an unparsable date — PANICS (modelled as `none`) instead of
being dropped locally, and the panic aborts the surrounding batch: in a
batch whose second value is malformed, the well-formed sibling is lost
with it, contradicting the claimed recovery semantics. -/
theorem set_cookie_panics_on_malformed :
    CookieJar.set_cookie 0 CookieJar.new "HttpOnly" = none ∧
    CookieJar.set_cookie 0 CookieJar.new "a=b; HttpOnly" = none ∧
    CookieJar.set_cookie 0 CookieJar.new "a=b; expires=garbage" = none ∧
    CookieJar.set_from_multiple_headers 0 CookieJar.new
      ["SAP_SESSIONID_A4H_001=XYZ", "HttpOnly"] = none ∧
    CookieJar.set_from_multiple_headers 0 CookieJar.new
      ["SAP_SESSIONID_A4H_001=XYZ"] =
      some ⟨[⟨"SAP_SESSIONID_A4H_001", "XYZ", none, none, none⟩]⟩ := by
  refine ⟨?_, ?_, ?_, ?_, ?_⟩ <;> rfl

/-- The jar, context cookie and session used as concrete inputs for the
separator and drop-context claims. -/
def jarXYZ : CookieJar :=
  ⟨[⟨"SAP_SESSIONID_A4H_001", "XYZ", none, none, none⟩]⟩

def ctxCookieABC : Cookie :=
  ⟨"sap-contextid", "ABC", none, none, none⟩

def sessXYZ : SecuritySession :=
  ⟨jarXYZ, none, [(1, ctxCookieABC)]⟩

/-- C6 (code-bug evidence): `SecuritySession::stateful_cookies` appends the
bound UserSession's cookie pair DIRECTLY to the jar header
(`cookies += &pair`), without the claimed `"; "` separator, producing
`...XYZsap-contextid=ABC`; only when no UserSession exists for the context
id does it equal the jar header alone, as claimed. The sibling code path
`inject_request_context` (src/query.rs) does insert the separator. -/
theorem stateful_cookies_missing_separator :
    sessXYZ.stateful_cookies 1 "http://host/x" =
      "SAP_SESSIONID_A4H_001=XYZsap-contextid=ABC" ∧
    sessXYZ.stateful_cookies 1 "http://host/x" ≠
      jarXYZ.to_header "http://host/x" ++ "; " ++ ctxCookieABC.as_cookie_pair ∧
    sessXYZ.stateful_cookies 2 "http://host/x" = jarXYZ.to_header "http://host/x" := by
  refine ⟨rfl, ?_, rfl⟩
  decide

/-- C9 (confirmed): `CookieJar::to_header` returns exactly the
`name=value` pairs of the stored cookies whose domain (if set) is a
substring of the destination and whose path (if set) is a substring of the
destination, joined with `"; "` in insertion order; in particular, after
applying `SAP_SESSIONID_A4H_001=XYZ; path=/sap/bc/adt` to an empty jar,
`to_header("http://host/sap/bc/adt/core/discovery")` returns exactly
`SAP_SESSIONID_A4H_001=XYZ`, and a cookie with domain `example.com` is
absent from the header of a destination not containing that domain. -/
theorem to_header_spec :
    (∀ (c : Cookie) (dst : String),
       c.is_allowed_for_destination dst = true ↔
         ((∀ d ∈ c.domain, ∃ pre post, dst.data = pre ++ d.data ++ post) ∧
          (∀ p ∈ c.path, ∃ pre post, dst.data = pre ++ p.data ++ post))) ∧
    (∀ (jar : CookieJar) (dst : String),
       jar.to_header dst = String.intercalate "; "
         ((jar.cookies.filter (fun c => c.is_allowed_for_destination dst)).map
           Cookie.as_cookie_pair)) ∧
    (CookieJar.set_cookie 0 CookieJar.new
        "SAP_SESSIONID_A4H_001=XYZ; path=/sap/bc/adt").map
      (fun j => j.to_header "http://host/sap/bc/adt/core/discovery") =
      some "SAP_SESSIONID_A4H_001=XYZ" ∧
    (CookieJar.set_cookie 0 CookieJar.new "foo=bar; domain=example.com").map
      (fun j => j.to_header "http://other.com/x") = some "" := by
  refine ⟨?_, fun jar dst => rfl, rfl, rfl⟩
  intro c dst
  unfold Cookie.is_allowed_for_destination
  cases hd : c.domain <;> cases hp : c.path <;>
    simp [strContains_iff]

/-- C8 (counterexample): at the boundary `expiry = now` the claim fails:
`Cookie::expired` tests `exp < Utc::now()` STRICTLY, so a `Set-Cookie`
whose parsed expiry equals `now` (expiry ≤ now as claimed) is treated as
live — applied to a jar holding a live cookie `a=1` it REPLACES that
cookie instead of removing it, and `find` still returns a cookie. -/
theorem tombstone_boundary_counterexample :
    ((CookieJar.set_cookie 10 CookieJar.new "a=1").bind
       (fun j => CookieJar.set_cookie 10 j "a=2; expires=Thu, 01-Jan-1970 00:00:10 GMT")) =
      some ⟨[⟨"a", "2", none, none, some 10⟩]⟩ ∧
    ((⟨[⟨"a", "2", none, none, some 10⟩]⟩ : CookieJar).find "a").isSome = true ∧
    (10 : Int) ≤ 10 := by
  refine ⟨rfl, rfl, le_refl 10⟩

/-- C8 (amended): for every CookieJar with pairwise distinct, `=`-free
cookie names and every `Set-Cookie` value whose parsed expiry is STRICTLY
before `now`, applying it removes any existing cookie of exactly that name
and inserts nothing: afterwards no cookie of that name remains, `find`
returns none provided no other cookie's name contains the name as a
substring (`find` matches substrings), and the cookie's `name=value` pair
is absent from the pair list of every `to_header` output. -/
theorem tombstone_amended (now : Int) (jar : CookieJar) (raw : String)
    (c : Cookie) (e : Int)
    (hnodup : (jar.cookies.map Cookie.name).Nodup)
    (heqfree : ∀ c' ∈ jar.cookies, '=' ∉ c'.name.data)
    (hparse : Cookie.parse raw = some c)
    (hexp : c.expires = some e)
    (hlt : e < now) :
    ∃ jar' : CookieJar,
      CookieJar.set_cookie now jar raw = some jar' ∧
      (∀ c' ∈ jar'.cookies, c' ∈ jar.cookies) ∧
      (∀ c' ∈ jar'.cookies, c'.name ≠ c.name) ∧
      ((∀ c' ∈ jar.cookies, strContains c'.name c.name = true → c'.name = c.name) →
        jar'.find c.name = none) ∧
      (∀ dst, c.as_cookie_pair ∉ jar'.to_header_pairs dst) := by
  have hexpd : c.expired now = true := by
    unfold Cookie.expired
    rw [hexp]
    simpa using hlt
  refine ⟨⟨CookieJar.removeFirst jar.cookies c.name⟩, ?_, ?_, ?_, ?_, ?_⟩
  · unfold CookieJar.set_cookie
    simp only [hparse, Option.bind_eq_bind, Option.some_bind]
    rw [if_pos hexpd]
    rfl
  · exact removeFirst_subset
  · exact removeFirst_name_gone hnodup
  · intro hsub
    unfold CookieJar.find
    rw [List.find?_eq_none]
    intro c' hc' hcontains
    exact removeFirst_name_gone hnodup c' hc'
      (hsub c' (removeFirst_subset c' hc') hcontains)
  · intro dst hmem
    unfold CookieJar.to_header_pairs at hmem
    rcases List.mem_map.mp hmem with ⟨c', hc', hpair⟩
    have hc'mem : c' ∈ CookieJar.removeFirst jar.cookies c.name :=
      (List.mem_filter.mp hc').1
    have hfree1 : '=' ∉ c'.name.data := heqfree c' (removeFirst_subset c' hc'mem)
    have hfree2 : '=' ∉ c.name.data := parse_name_eq_free hparse
    have hdata : c'.name.data ++ '=' :: c'.value.data =
        c.name.data ++ '=' :: c.value.data := by
      have h' := congrArg String.data hpair
      unfold Cookie.as_cookie_pair at h'
      simpa [String.data_append] using h'
    exact removeFirst_name_gone hnodup c' hc'mem
      (congrArg String.mk (pair_name_inj '=' hfree1 hfree2 hdata).1)

/-- Witness for `tombstone_amended`: the spec's Scenario-A cookie (expiry
1980, in the past) applied to a jar holding a live `MYSAPSSO2` cookie. -/
theorem tombstone_amended_witness :
    ∃ jar' : CookieJar,
      CookieJar.set_cookie 500000000 ⟨[⟨"MYSAPSSO2", "abc123", none, none, none⟩]⟩
        "MYSAPSSO2=abc123; path=/; domain=localhost; expires=Tue, 01-Jan-1980 00:00:01 GMT" =
        some jar' ∧
      (∀ c' ∈ jar'.cookies, c' ∈ [(⟨"MYSAPSSO2", "abc123", none, none, none⟩ : Cookie)]) ∧
      (∀ c' ∈ jar'.cookies,
        c'.name ≠ (⟨"MYSAPSSO2", "abc123", some "/", some "localhost", some 315532801⟩ : Cookie).name) ∧
      ((∀ c' ∈ [(⟨"MYSAPSSO2", "abc123", none, none, none⟩ : Cookie)],
          strContains c'.name "MYSAPSSO2" = true → c'.name = "MYSAPSSO2") →
        jar'.find "MYSAPSSO2" = none) ∧
      (∀ dst,
        (⟨"MYSAPSSO2", "abc123", some "/", some "localhost", some 315532801⟩ : Cookie).as_cookie_pair ∉
          jar'.to_header_pairs dst) :=
  tombstone_amended 500000000 ⟨[⟨"MYSAPSSO2", "abc123", none, none, none⟩]⟩
    "MYSAPSSO2=abc123; path=/; domain=localhost; expires=Tue, 01-Jan-1980 00:00:01 GMT"
    ⟨"MYSAPSSO2", "abc123", some "/", some "localhost", some 315532801⟩ 315532801
    (by decide) (by decide) (by rfl) rfl (by decide)

/-- A successful empty transport response, used as a script entry. -/
def okResponse : Response := ⟨200, [], ""⟩

/-- A client holding the session `sessXYZ` (one jar cookie, one
UserSession under id 1). -/
def clientXYZ : ClientState :=
  ⟨some sessXYZ, "DEVELOPER", "secret", "http://localhost:50000"⟩

/-- C7 (counterexample): dropping an allocated context id whose UserSession
exists DOES issue a request to the server: `Client::drop_context` removes
the local record and then dispatches a stateless POST to `/sap/bc/adt`
carrying the dropped context's cookie — the transport observes exactly one
additional call, not zero (the repository's own test
`dropping_context_unlocks_objects` relies on this server-side cleanup). -/
theorem drop_context_counterexample :
    (Client.drop_context clientXYZ 1 [okResponse]).map
      (fun x => (x.2.1.length, x.2.2)) = some (1, true) ∧
    (Client.drop_context clientXYZ 1 [okResponse]).map
      (fun x => x.2.1.map (fun rq => (rq.1.method, rq.1.uri))) =
      some [("POST", "http://localhost:50000/sap/bc/adt")] := by
  exact ⟨rfl, rfl⟩

/-- C7 (amended): dropping a context id removes only the local UserSession
record for that id and returns whether one existed; the cookie jar and the
UserSessions of all other ids are unchanged. When no session or no record
for the id exists, no request reaches the transport; when a record exists,
exactly one stateless POST to `{server}/sap/bc/adt` carrying the session
cookies plus the dropped context's cookie pair is dispatched as
server-side cleanup (its response is ignored). -/
theorem drop_context_amended (st : ClientState) (id : Nat) (script : List Response) :
    (st.session = none →
      Client.drop_context st id script = some (st, [], false)) ∧
    (∀ s, st.session = some s → ctxRemove s.contexts id = none →
      Client.drop_context st id script = some (st, [], false)) ∧
    (∀ s ck rest r scr, st.session = some s →
      ctxRemove s.contexts id = some (ck, rest) → script = r :: scr →
      Client.drop_context st id script =
        some ({ st with session := some { s with contexts := rest } },
          [({ method := "POST", uri := st.serverUrl ++ "/sap/bc/adt",
              headers := [("x-sap-adt-sessiontype", "stateless"),
                ("cookie",
                  SecuritySession.stateless_cookies { s with contexts := rest } "" ++
                    ck.as_cookie_pair)] }, "")], true) ∧
      ({ s with contexts := rest } : SecuritySession).cookies = s.cookies ∧
      (∀ j, j ≠ id → ctxLookup rest j = ctxLookup s.contexts j)) := by
  refine ⟨?_, ?_, ?_⟩
  · intro hnone
    unfold Client.drop_context
    rw [hnone]
  · intro s hsome hrem
    unfold Client.drop_context
    simp only [hsome, hrem]
  · intro s ck rest r scr hsome hrem hscr
    refine ⟨?_, rfl, ctxRemove_lookup_other hrem⟩
    unfold Client.drop_context
    simp only [hsome, hrem, hscr]

/-- Witness for `drop_context_amended` at the concrete client `clientXYZ`:
both the existing-record branch (id 1) and the absent-record branch
(id 2). -/
theorem drop_context_amended_witness :
    Client.drop_context clientXYZ 1 [okResponse] =
      some ({ clientXYZ with session := some { sessXYZ with contexts := [] } },
        [({ method := "POST", uri := "http://localhost:50000" ++ "/sap/bc/adt",
            headers := [("x-sap-adt-sessiontype", "stateless"),
              ("cookie",
                SecuritySession.stateless_cookies { sessXYZ with contexts := [] } "" ++
                  ctxCookieABC.as_cookie_pair)] }, "")], true) ∧
    Client.drop_context clientXYZ 2 [okResponse] = some (clientXYZ, [], false) := by
  constructor
  · exact ((drop_context_amended clientXYZ 1 [okResponse]).2.2 sessXYZ ctxCookieABC []
      okResponse [] rfl rfl rfl).1
  · exact (drop_context_amended clientXYZ 2 [okResponse]).2.1 sessXYZ rfl rfl

/-- C4 (confirmed): for every request built by the dispatcher — stateless
and stateful alike — if a session exists the request carries exactly the
session's cookie header (stateless/stateful variant) and an `x-csrf-token`
header equal to the stored token or the literal `fetch` when none is
stored, and NO Authorization header; if no session exists it carries
`Authorization: Basic base64(user:pass)` and `x-csrf-token: fetch` and no
cookie header. The incoming request is assumed not to carry these headers
already. -/
theorem dispatch_headers_spec (st : ClientState) (req : Request) (ctx : Nat)
    (hc : getAllH req.headers "cookie" = [])
    (ht : getAllH req.headers "x-csrf-token" = [])
    (ha : getAllH req.headers "authorization" = []) :
    match st.session with
    | some s =>
        getAllH (Client.add_stateless_headers st req).headers "cookie" =
          [s.stateless_cookies ""] ∧
        getAllH (Client.add_stateless_headers st req).headers "x-csrf-token" =
          [s.csrf_token.getD "fetch"] ∧
        getAllH (Client.add_stateless_headers st req).headers "authorization" = [] ∧
        getAllH (Client.add_stateful_headers st req ctx).headers "cookie" =
          [s.stateful_cookies ctx ""] ∧
        getAllH (Client.add_stateful_headers st req ctx).headers "x-csrf-token" =
          [s.csrf_token.getD "fetch"] ∧
        getAllH (Client.add_stateful_headers st req ctx).headers "authorization" = []
    | none =>
        getAllH (Client.add_stateless_headers st req).headers "authorization" =
          [basicAuth st.username st.password] ∧
        getAllH (Client.add_stateless_headers st req).headers "x-csrf-token" =
          ["fetch"] ∧
        getAllH (Client.add_stateless_headers st req).headers "cookie" = [] ∧
        getAllH (Client.add_stateful_headers st req ctx).headers "authorization" =
          [basicAuth st.username st.password] ∧
        getAllH (Client.add_stateful_headers st req ctx).headers "x-csrf-token" =
          ["fetch"] ∧
        getAllH (Client.add_stateful_headers st req ctx).headers "cookie" = [] := by
  have hc0 := getAllH_nil_filter hc
  have ht0 := getAllH_nil_filter ht
  have ha0 := getAllH_nil_filter ha
  cases hs : st.session with
  | some s =>
      simp only [Client.add_stateless_headers, Client.add_stateful_headers, hs]
      refine ⟨?_, ?_, ?_, ?_, ?_, ?_⟩ <;>
        simp [getAllH, List.filter_append, hc0, ht0, ha0, SecuritySession.csrf_header]
  | none =>
      simp only [Client.add_stateless_headers, Client.add_stateful_headers, hs]
      refine ⟨?_, ?_, ?_, ?_, ?_, ?_⟩ <;>
        simp [getAllH, List.filter_append, hc0, ht0, ha0]

/-- Witness for `dispatch_headers_spec`: a session-less client and a bare
GET request. -/
theorem dispatch_headers_spec_witness :
    getAllH (Client.add_stateless_headers
        ⟨none, "DEVELOPER", "secret", "http://localhost:50000"⟩
        ⟨"GET", "/sap/bc/adt/discovery", []⟩).headers "authorization" =
      [basicAuth "DEVELOPER" "secret"] ∧
    getAllH (Client.add_stateless_headers
        ⟨none, "DEVELOPER", "secret", "http://localhost:50000"⟩
        ⟨"GET", "/sap/bc/adt/discovery", []⟩).headers "x-csrf-token" = ["fetch"] ∧
    getAllH (Client.add_stateless_headers
        ⟨none, "DEVELOPER", "secret", "http://localhost:50000"⟩
        ⟨"GET", "/sap/bc/adt/discovery", []⟩).headers "cookie" = [] ∧
    getAllH (Client.add_stateful_headers
        ⟨none, "DEVELOPER", "secret", "http://localhost:50000"⟩
        ⟨"GET", "/sap/bc/adt/discovery", []⟩ 1).headers "authorization" =
      [basicAuth "DEVELOPER" "secret"] ∧
    getAllH (Client.add_stateful_headers
        ⟨none, "DEVELOPER", "secret", "http://localhost:50000"⟩
        ⟨"GET", "/sap/bc/adt/discovery", []⟩ 1).headers "x-csrf-token" = ["fetch"] ∧
    getAllH (Client.add_stateful_headers
        ⟨none, "DEVELOPER", "secret", "http://localhost:50000"⟩
        ⟨"GET", "/sap/bc/adt/discovery", []⟩ 1).headers "cookie" = [] :=
  dispatch_headers_spec ⟨none, "DEVELOPER", "secret", "http://localhost:50000"⟩
    ⟨"GET", "/sap/bc/adt/discovery", []⟩ 1 rfl rfl rfl

/-- C10 (confirmed): whenever `update_from_headers` is called with a
context id and the merged `Set-Cookie` headers yield a `sap-contextid`
cookie, that cookie is moved out of the jar into the UserSession stored
under exactly that id: afterwards the jar holds no `sap-contextid` cookie
(so no stateless `to_header` output can include its pair), and the
UserSessions of all other ids are unchanged. `create_from_headers` is the
same operation started from the empty session, so it inherits the
property. -/
theorem contextid_moved_spec (now : Int) (headers : List (String × String))
    (id : Nat) (s : SecuritySession) (jm : CookieJar) (ck : Cookie)
    (hnodup : (s.cookies.cookies.map Cookie.name).Nodup)
    (hjm : CookieJar.set_from_multiple_headers now s.cookies
      (getAllH headers "set-cookie") = some jm)
    (hck : jm.cookies.find? (fun c => c.name == "sap-contextid") = some ck) :
    (∃ s', s.update_from_headers now headers (some id) = some s' ∧
       (∀ c' ∈ s'.cookies.cookies, c'.name ≠ "sap-contextid") ∧
       ctxLookup s'.contexts id = some ck ∧
       (∀ j, j ≠ id → ctxLookup s'.contexts j = ctxLookup s.contexts j) ∧
       (∀ dst c',
          c' ∈ s'.cookies.cookies.filter (fun c => c.is_allowed_for_destination dst) →
          c'.name ≠ "sap-contextid")) ∧
    (∀ ctx, SecuritySession.create_from_headers now headers ctx =
       SecuritySession.update_from_headers now ⟨CookieJar.new, none, []⟩ headers ctx) := by
  have hjmnodup : (jm.cookies.map Cookie.name).Nodup :=
    set_from_multiple_headers_nodup hnodup hjm
  constructor
  · refine ⟨⟨⟨CookieJar.removeFirst jm.cookies "sap-contextid"⟩,
      (match getH headers "x-csrf-token" with
       | some v => some v
       | none => s.csrf_token), ctxStore s.contexts id ck⟩, ?_, ?_, ?_, ?_, ?_⟩
    · unfold SecuritySession.update_from_headers
      simp only [hjm, Option.bind_eq_bind, Option.some_bind]
      unfold CookieJar.take CookieJar.drop_cookie
      rw [hck]
      rfl
    · exact fun c' hc' => removeFirst_name_gone hjmnodup c' hc'
    · exact ctxStore_lookup_self s.contexts id ck
    · exact fun j hj => ctxStore_lookup_other s.contexts id j ck hj
    · intro dst c' hc'
      exact removeFirst_name_gone hjmnodup c' (List.mem_filter.mp hc').1
  · intro ctx
    unfold SecuritySession.create_from_headers SecuritySession.update_from_headers
    cases hsf : CookieJar.set_from_multiple_headers now CookieJar.new
        (getAllH headers "set-cookie") with
    | none => rfl
    | some j =>
        simp only [Option.bind_eq_bind, Option.some_bind]
        cases hgt : getH headers "x-csrf-token" <;>
          cases htk : (j.take "sap-contextid").1 <;>
            cases ctx <;> rfl

/-- Witness for `contextid_moved_spec`: a response carrying a session
cookie and a `sap-contextid` cookie, merged under context id 5 into a
session that already holds an unrelated UserSession under id 9. -/
theorem contextid_moved_spec_witness :
    (∃ s', SecuritySession.update_from_headers 0 ⟨⟨[]⟩, none, [(9, ctxCookieABC)]⟩
        [("set-cookie", "SAP_SESSIONID_A4H_001=XYZ"), ("set-cookie", "sap-contextid=ABC")]
        (some 5) = some s' ∧
       (∀ c' ∈ s'.cookies.cookies, c'.name ≠ "sap-contextid") ∧
       ctxLookup s'.contexts 5 = some ⟨"sap-contextid", "ABC", none, none, none⟩ ∧
       (∀ j, j ≠ 5 → ctxLookup s'.contexts j =
          ctxLookup ([(9, ctxCookieABC)] : CtxMap) j) ∧
       (∀ dst c',
          c' ∈ s'.cookies.cookies.filter (fun c => c.is_allowed_for_destination dst) →
          c'.name ≠ "sap-contextid")) ∧
    (∀ ctx, SecuritySession.create_from_headers 0
        [("set-cookie", "SAP_SESSIONID_A4H_001=XYZ"), ("set-cookie", "sap-contextid=ABC")] ctx =
       SecuritySession.update_from_headers 0 ⟨CookieJar.new, none, []⟩
        [("set-cookie", "SAP_SESSIONID_A4H_001=XYZ"), ("set-cookie", "sap-contextid=ABC")] ctx) :=
  contextid_moved_spec 0
    [("set-cookie", "SAP_SESSIONID_A4H_001=XYZ"), ("set-cookie", "sap-contextid=ABC")]
    5 ⟨⟨[]⟩, none, [(9, ctxCookieABC)]⟩
    ⟨[⟨"SAP_SESSIONID_A4H_001", "XYZ", none, none, none⟩,
      ⟨"sap-contextid", "ABC", none, none, none⟩]⟩
    ⟨"sap-contextid", "ABC", none, none, none⟩
    (by decide) rfl rfl

/-- C2 (confirmed): a state-changing (POST) request issued while no CSRF
token is stored makes the dispatcher first issue exactly one zero-body GET
to the same destination, merge that GET's response (its `Set-Cookie` and
`x-csrf-token` headers) into the session, and the subsequent POST carries
the token returned by that GET — not the literal `fetch` — in its
`x-csrf-token` header. Assumes the GET's response actually carries
parseable `Set-Cookie` headers and a token `t ≠ "fetch"` (the code drops
the token of a cookie-less response). -/
theorem csrf_prefetch_spec (now : Int) (st : ClientState) (req : Request)
    (body : String) (r1 r2 : Response) (t : String)
    (hpost : req.method = "POST")
    (hnotok : match st.session with
              | some s => s.csrf_token = none
              | none => True)
    (hsc : getAllH r1.headers "set-cookie" ≠ [])
    (hparse : ∀ v ∈ getAllH r1.headers "set-cookie", (Cookie.parse v).isSome)
    (htok : getH r1.headers "x-csrf-token" = some t)
    (htfetch : t ≠ "fetch")
    (hreqtok : getAllH req.headers "x-csrf-token" = [])
    (hr2 : getAllH r2.headers "set-cookie" = []) :
    ∃ s1,
      Client.update_from_response now st r1 none =
        some { st with session := some s1 } ∧
      s1.csrf_token = some t ∧
      Client.dispatch_stateless now st req body [r1, r2] =
        some ({ st with session := some s1 },
          [(Client.add_stateless_headers st (Client.clone_as_csrf_request req), ""),
           (Client.add_stateless_headers { st with session := some s1 } req, body)],
          r2) ∧
      (Client.add_stateless_headers st (Client.clone_as_csrf_request req)).method =
        "GET" ∧
      (Client.add_stateless_headers st (Client.clone_as_csrf_request req)).uri =
        req.uri ∧
      (Client.add_stateless_headers { st with session := some s1 } req).method =
        "POST" ∧
      getAllH (Client.add_stateless_headers
        { st with session := some s1 } req).headers "x-csrf-token" = [t] ∧
      t ≠ "fetch" := by
  obtain ⟨s1, hupd, hcs⟩ := update_from_response_csrf now st hsc hparse htok
  have hpre : Client.csrf_prefetch_required st req = true := by
    unfold Client.csrf_prefetch_required
    cases hses : st.session with
    | none => simp [hpost]
    | some s =>
        rw [hses] at hnotok
        simp [hpost, SecuritySession.csrf_header_set, hnotok]
  have hupd2 : Client.update_from_response now { st with session := some s1 } r2
      none = some { st with session := some s1 } := by
    unfold Client.update_from_response
    rw [if_pos hr2]
  refine ⟨s1, hupd, hcs, ?_, ?_, ?_, ?_, ?_, htfetch⟩
  · unfold Client.dispatch_stateless Client.prefetch_csrf_token
    simp only [hpre, if_true, hupd, hupd2, Option.pure_def, Option.bind_eq_bind,
      Option.some_bind]
    rfl
  · unfold Client.add_stateless_headers Client.clone_as_csrf_request
    cases st.session <;> rfl
  · unfold Client.add_stateless_headers Client.clone_as_csrf_request
    cases st.session <;> rfl
  · unfold Client.add_stateless_headers
    rw [← hpost]
  · unfold Client.add_stateless_headers
    simp only []
    simp [getAllH, List.filter_append, getAllH_nil_filter hreqtok,
      SecuritySession.csrf_header, hcs]

/-- Witness for `csrf_prefetch_spec`: a session-less client POSTing to a
lock endpoint; the prefetch GET's response carries a session cookie and
the token `tok123`. -/
theorem csrf_prefetch_spec_witness :
    ∃ s1,
      Client.update_from_response 0
        ⟨none, "DEVELOPER", "secret", "http://localhost:50000"⟩
        ⟨200, [("set-cookie", "SAP_SESSIONID_A4H_001=XYZ"),
               ("x-csrf-token", "tok123")], ""⟩ none =
        some { (⟨none, "DEVELOPER", "secret", "http://localhost:50000"⟩ : ClientState)
                with session := some s1 } ∧
      s1.csrf_token = some "tok123" ∧
      Client.dispatch_stateless 0
        ⟨none, "DEVELOPER", "secret", "http://localhost:50000"⟩
        ⟨"POST", "http://localhost:50000/sap/bc/adt/lock", []⟩ "payload"
        [⟨200, [("set-cookie", "SAP_SESSIONID_A4H_001=XYZ"),
                ("x-csrf-token", "tok123")], ""⟩, ⟨200, [], "done"⟩] =
        some ({ (⟨none, "DEVELOPER", "secret", "http://localhost:50000"⟩ : ClientState)
                  with session := some s1 },
          [(Client.add_stateless_headers
              ⟨none, "DEVELOPER", "secret", "http://localhost:50000"⟩
              (Client.clone_as_csrf_request
                ⟨"POST", "http://localhost:50000/sap/bc/adt/lock", []⟩), ""),
           (Client.add_stateless_headers
              { (⟨none, "DEVELOPER", "secret", "http://localhost:50000"⟩ : ClientState)
                  with session := some s1 }
              ⟨"POST", "http://localhost:50000/sap/bc/adt/lock", []⟩, "payload")],
          ⟨200, [], "done"⟩) ∧
      (Client.add_stateless_headers
        ⟨none, "DEVELOPER", "secret", "http://localhost:50000"⟩
        (Client.clone_as_csrf_request
          ⟨"POST", "http://localhost:50000/sap/bc/adt/lock", []⟩)).method = "GET" ∧
      (Client.add_stateless_headers
        ⟨none, "DEVELOPER", "secret", "http://localhost:50000"⟩
        (Client.clone_as_csrf_request
          ⟨"POST", "http://localhost:50000/sap/bc/adt/lock", []⟩)).uri =
        (⟨"POST", "http://localhost:50000/sap/bc/adt/lock", []⟩ : Request).uri ∧
      (Client.add_stateless_headers
        { (⟨none, "DEVELOPER", "secret", "http://localhost:50000"⟩ : ClientState)
            with session := some s1 }
        ⟨"POST", "http://localhost:50000/sap/bc/adt/lock", []⟩).method = "POST" ∧
      getAllH (Client.add_stateless_headers
        { (⟨none, "DEVELOPER", "secret", "http://localhost:50000"⟩ : ClientState)
            with session := some s1 }
        ⟨"POST", "http://localhost:50000/sap/bc/adt/lock", []⟩).headers
        "x-csrf-token" = ["tok123"] ∧
      "tok123" ≠ "fetch" :=
  csrf_prefetch_spec 0 ⟨none, "DEVELOPER", "secret", "http://localhost:50000"⟩
    ⟨"POST", "http://localhost:50000/sap/bc/adt/lock", []⟩ "payload"
    ⟨200, [("set-cookie", "SAP_SESSIONID_A4H_001=XYZ"), ("x-csrf-token", "tok123")], ""⟩
    ⟨200, [], "done"⟩ "tok123" rfl trivial (by decide) (by decide) rfl
    (by decide) rfl rfl

/-- A transport response with status 401, and concrete inputs for the
status-handling claim. -/
def r401 : Response := ⟨401, [], "denied"⟩

def parseUnit : String → Except String Unit := fun _ => Except.ok ()

def stEp : EpClient :=
  ⟨⟨[⟨"SAP_SESSIONID_A4H_001", "XYZ", none, none, none⟩]⟩, some "tok", [],
   "DEVELOPER", "secret", "http://localhost:50000"⟩

def epPost : Endpoint := ⟨"POST", "/sap/bc/adt/lock", [], "payload"⟩

/-- C5 (counterexample): on a STATEFUL dispatch a 401 response is NOT
surfaced as the Unauthorized error — `StatefulQuery::query` has no 401
check, so the 401 response is handed to the endpoint's decoder and comes
back as its `BadStatusCode` response error. -/
theorem stateful_401_counterexample :
    (Ep.statefulQuery parseUnit 2 0 epPost 7 stEp [Except.ok r401]).map
      (fun x => x.2.2) =
      some (Except.error (QueryError.responseError
        (RespError.badStatusCode 401 "denied"))) ∧
    QueryError.responseError (RespError.badStatusCode 401 "denied") ≠
      QueryError.unauthorized := by
  exact ⟨rfl, by decide⟩

/-- C5 (amended): a STATELESS dispatch surfaces a 401 response as the
Unauthorized error after exactly one transport call (no implicit re-login
or re-authentication), and a transport failure is propagated to the
caller unmodified; a STATEFUL dispatch propagates transport failures the
same way but performs no 401 check: the 401 response goes to the
endpoint's response decoder and surfaces as its BadStatusCode response
error. (The CSRF-prefetch branch is excluded by assuming a GET method or
a known token.) -/
theorem status_handling_amended {T : Type} (parse : String → Except String T)
    (fuel : Nat) (now : Int) (ep : Endpoint) (ctx : Nat) (st : EpClient)
    (r : Response) (e : String) (rest : List (Except String Response))
    (hnopre : ep.method = "GET" ∨ st.csrf.isSome) :
    (r.status = 401 →
      Ep.statelessQuery parse (fuel + 1) now ep st (Except.ok r :: rest) =
        some (st, [((Ep.build_request ep st).1, ep.body)],
          Except.error QueryError.unauthorized)) ∧
    (Ep.statelessQuery parse (fuel + 1) now ep st (Except.error e :: rest) =
        some (st, [((Ep.build_request ep st).1, ep.body)],
          Except.error (QueryError.dispatchError e))) ∧
    (ctxLookup st.contexts ctx = none → r.status = 401 →
      getAllH r.headers "set-cookie" = [] → getH r.headers "x-csrf-token" = none →
      Ep.statefulQuery parse (fuel + 1) now ep ctx st (Except.ok r :: rest) =
        some (st,
          [({ (Ep.build_request ep st).1 with
              headers := Ep.setHeader (Ep.build_request ep st).1.headers
                "x-sap-adt-sessiontype" "stateful" }, ep.body)],
          Except.error (QueryError.responseError
            (RespError.badStatusCode 401 r.body)))) ∧
    (ctxLookup st.contexts ctx = none →
      Ep.statefulQuery parse (fuel + 1) now ep ctx st (Except.error e :: rest) =
        some (st,
          [({ (Ep.build_request ep st).1 with
              headers := Ep.setHeader (Ep.build_request ep st).1.headers
                "x-sap-adt-sessiontype" "stateful" }, ep.body)],
          Except.error (QueryError.dispatchError e))) := by
  have hcond : (ep.method != "GET" && st.csrf.isNone) = false := by
    rcases hnopre with h | h
    · simp [h]
    · cases hc : st.csrf with
      | none => rw [hc] at h; simp at h
      | some v => simp [hc]
  refine ⟨?_, ?_, ?_, ?_⟩
  · intro h401
    unfold Ep.statelessQuery
    simp only [hcond, Bool.false_eq_true, if_false, h401]
    rfl
  · unfold Ep.statelessQuery
    simp only [hcond, Bool.false_eq_true, if_false]
  · intro hctx h401 hscr htokr
    unfold Ep.statefulQuery
    simp only [hcond, Bool.false_eq_true, if_false]
    unfold Ep.inject_request_context
    simp only [hctx]
    unfold Ep.update_session_from_response
    simp only [htokr, hscr, if_pos]
    unfold decodeSuccess
    simp only [h401]
    rfl
  · intro hctx
    unfold Ep.statefulQuery
    simp only [hcond, Bool.false_eq_true, if_false]
    unfold Ep.inject_request_context
    simp only [hctx]

/-- Witness for `status_handling_amended` at the concrete POST endpoint,
token-holding client, 401 response and a transport failure message. -/
theorem status_handling_amended_witness :
    (r401.status = 401 →
      Ep.statelessQuery parseUnit 2 0 epPost stEp [Except.ok r401] =
        some (stEp, [((Ep.build_request epPost stEp).1, epPost.body)],
          Except.error QueryError.unauthorized)) ∧
    (Ep.statelessQuery parseUnit 2 0 epPost stEp [Except.error "connection reset"] =
        some (stEp, [((Ep.build_request epPost stEp).1, epPost.body)],
          Except.error (QueryError.dispatchError "connection reset"))) ∧
    (ctxLookup stEp.contexts 7 = none → r401.status = 401 →
      getAllH r401.headers "set-cookie" = [] →
      getH r401.headers "x-csrf-token" = none →
      Ep.statefulQuery parseUnit 2 0 epPost 7 stEp [Except.ok r401] =
        some (stEp,
          [({ (Ep.build_request epPost stEp).1 with
              headers := Ep.setHeader (Ep.build_request epPost stEp).1.headers
                "x-sap-adt-sessiontype" "stateful" }, epPost.body)],
          Except.error (QueryError.responseError
            (RespError.badStatusCode 401 r401.body)))) ∧
    (ctxLookup stEp.contexts 7 = none →
      Ep.statefulQuery parseUnit 2 0 epPost 7 stEp [Except.error "connection reset"] =
        some (stEp,
          [({ (Ep.build_request epPost stEp).1 with
              headers := Ep.setHeader (Ep.build_request epPost stEp).1.headers
                "x-sap-adt-sessiontype" "stateful" }, epPost.body)],
          Except.error (QueryError.dispatchError "connection reset"))) :=
  status_handling_amended parseUnit 1 0 epPost 7 stEp r401 "connection reset" []
    (Or.inr rfl)

end AdtQuery
